import Mathlib

/-!
Formalization of the HEX-LoadBench load-generation engine: the Python load
runner (`runner/python-runner/load_runner.py`), the test executor and the
execution manager (`runner/test_executor.py`), as a shallow embedding.

Request latencies and timestamps are modelled as rationals; the outcome of a
single HTTP attempt (the part of the world outside the engine) is an explicit
`RequestEvent`.  Fallible code is modelled with `Except`.
-/

namespace LoadBench

/-- Mirror of the `LoadTestConfig` dataclass in `load_runner.py`. -/
structure LoadTestConfig where
  target_url : String := ""
  method : String := "GET"
  headers : List (String × String) := []
  body : String := ""
  auth_token : String := ""
  concurrent_users : Nat := 10
  duration : Nat := 60
  max_rps : Nat := 100
  timeout : Nat := 30
deriving Repr, DecidableEq

/-- Mirror of the `TestMetrics` dataclass: the mutable accumulator one
execution owns.  `status_codes` is the dict as an association list in key
insertion order, like a Python dict. -/
structure TestMetrics where
  total_requests : Nat := 0
  successful_requests : Nat := 0
  failed_requests : Nat := 0
  response_times : List ℚ := []
  status_codes : List (Nat × Nat) := []
  errors : List String := []
deriving Repr, DecidableEq

/-- Outcome of one attempted HTTP exchange, as seen by `make_request`:
either a response arrived (any status), or httpx raised a `RequestError`.
`finish` is the wall-clock time at which `time.time()` is read on the
response path (line 142 of `load_runner.py`). -/
inductive RequestEvent where
  | httpResponse (status : Nat) (text : String) (latency : ℚ) (finish : ℚ)
  | transportError (msg : String) (latency : ℚ)
deriving Repr, DecidableEq

/-- Mirror of the dict returned by `make_request`. -/
structure RequestResult where
  success : Bool
  status_code : Option Nat := none
  response_time : ℚ
  response_text : String := ""
  error : Option String := none
deriving Repr, DecidableEq

/-- Runner-instance state mutated by `make_request`: the metrics, the
`running` cancellation flag and the shared rate-limiter stamp
`last_request_time`. -/
structure RunnerState where
  metrics : TestMetrics := {}
  running : Bool := false
  last_request_time : ℚ := 0
deriving Repr, DecidableEq

/-- Dict update `d[s] = d.get(s, 0) + 1` on an association list: bump the
first entry with key `s`, or append `(s, 1)` if absent. -/
def bumpStatus : List (Nat × Nat) → Nat → List (Nat × Nat)
  | [], s => [(s, 1)]
  | (k, v) :: rest, s =>
      if k = s then (k, v + 1) :: rest else (k, v) :: bumpStatus rest s

/-- Python `str.upper()`, character by character.  (This is the ASCII
uppercase map; the methods compared against it are ASCII.) -/
def pyUpper (s : String) : String := String.mk (s.data.map Char.toUpper)

/-- The `if/elif` dispatch chain of `make_request` (lines 99-122): the five
verbs it issues, compared against `method.upper()`; any other method falls
into the `raise ValueError` branch and is `none` here. -/
def supportedVerb (m : String) : Option String :=
  let u := pyUpper m
  if u = "GET" ∨ u = "POST" ∨ u = "PUT" ∨ u = "DELETE" ∨ u = "PATCH" then some u
  else none

/-- Shallow embedding of `LoadRunner.make_request`.  An unsupported method
raises (`Except.error`) before any metric is touched.  On a response, the
totals, latency list and status histogram are updated, the outcome is
classified by `200 <= status < 300`, a failure appends an error string with
the body snippet truncated to 100 characters, and `last_request_time` is
stamped.  On a transport error the attempt counts as failed, the full
message is appended, and `last_request_time` is not touched. -/
def make_request (cfg : LoadTestConfig) (st : RunnerState) (ev : RequestEvent) :
    Except String (RunnerState × RequestResult) :=
  match supportedVerb cfg.method with
  | none => .error ("Unsupported HTTP method: " ++ cfg.method)
  | some _ =>
    match ev with
    | .httpResponse status text latency finish =>
      let m := st.metrics
      let m1 : TestMetrics :=
        { m with
          total_requests := m.total_requests + 1,
          response_times := m.response_times ++ [latency],
          status_codes := bumpStatus m.status_codes status }
      let m2 : TestMetrics :=
        if 200 ≤ status ∧ status < 300 then
          { m1 with successful_requests := m1.successful_requests + 1 }
        else
          { m1 with
            failed_requests := m1.failed_requests + 1,
            errors := m1.errors ++
              ["HTTP " ++ toString status ++ ": " ++ text.take 100] }
      .ok ({ st with metrics := m2, last_request_time := finish },
           { success := decide (200 ≤ status ∧ status < 300),
             status_code := some status,
             response_time := latency,
             response_text :=
               if 200 ≤ status ∧ status < 300 then "" else text.take 100 })
    | .transportError msg latency =>
      let m := st.metrics
      let m1 : TestMetrics :=
        { m with
          total_requests := m.total_requests + 1,
          failed_requests := m.failed_requests + 1,
          response_times := m.response_times ++ [latency],
          errors := m.errors ++ ["Request error: " ++ msg] }
      .ok ({ st with metrics := m1 },
           { success := false, response_time := latency, error := some msg })

/-- One completed attempt as a state transformer: a raised `ValueError`
leaves the runner state unchanged (the exception propagates past the
metrics updates without performing any of them). -/
def runnerStep (cfg : LoadTestConfig) (st : RunnerState) (ev : RequestEvent) :
    RunnerState :=
  match make_request cfg st ev with
  | .ok (st', _) => st'
  | .error _ => st

/-- A sequence of completed attempts (any interleaving of the virtual
users' attempts), folded over the shared runner state. -/
def runEvents (cfg : LoadTestConfig) (st : RunnerState)
    (evs : List RequestEvent) : RunnerState :=
  evs.foldl (runnerStep cfg) st

/-- The accounting invariant of `TestMetrics`. -/
def metricsInv (m : TestMetrics) : Prop :=
  m.total_requests = m.successful_requests + m.failed_requests

/-- Python `min(l)` on a nonempty list. -/
def pyMin : List ℚ → ℚ
  | [] => 0
  | a :: t => t.foldl min a

/-- Python `max(l)` on a nonempty list. -/
def pyMax : List ℚ → ℚ
  | [] => 0
  | a :: t => t.foldl max a

/-- Python `round(x, 2)`: round to two decimal places. -/
def round2 (x : ℚ) : ℚ := (round (x * 100) : ℚ) / 100

/-- Nearest-rank index `int(n * p)` used by `generate_report`. -/
def pctIndex (n : Nat) (p : ℚ) : Nat := (⌊(n : ℚ) * p⌋).toNat

/-- Mirror of the report dict built by `generate_report` (the sections the
engine derives from the metrics; the config echo and timestamps carry no
logic). -/
structure Report where
  total_requests : Nat
  successful_requests : Nat
  failed_requests : Nat
  error_rate_percent : ℚ
  average_ms : ℚ
  minimum_ms : ℚ
  maximum_ms : ℚ
  p50_ms : ℚ
  p95_ms : ℚ
  p99_ms : ℚ
  status_codes : List (Nat × Nat)
  errors : List String
  errors_count : Nat
deriving Repr, DecidableEq

/-- Python `sorted(self.metrics.response_times)`: the sorted permutation of
the latency sequence. -/
def sortedLatencies (m : TestMetrics) : List ℚ :=
  List.insertionSort (· ≤ ·) m.response_times

/-- Shallow embedding of `LoadRunner.generate_report`: fails with an
explicit no-data result on an empty latency list, otherwise computes
average, min, max, nearest-rank percentiles over the sorted latencies, and
the error rate. -/
def generate_report (m : TestMetrics) : Except String Report :=
  if m.response_times = [] then .error "No metrics collected"
  else
    let rts := m.response_times
    let sortedTimes := sortedLatencies m
    let p50 := sortedTimes.getD (pctIndex sortedTimes.length (1/2)) 0
    let p95 := sortedTimes.getD (pctIndex sortedTimes.length (95/100)) 0
    let p99 := sortedTimes.getD (pctIndex sortedTimes.length (99/100)) 0
    let error_rate : ℚ :=
      if m.total_requests > 0 then
        (m.failed_requests : ℚ) / (m.total_requests : ℚ) * 100
      else 0
    .ok
      { total_requests := m.total_requests,
        successful_requests := m.successful_requests,
        failed_requests := m.failed_requests,
        error_rate_percent := round2 error_rate,
        average_ms := round2 (rts.sum / (rts.length : ℚ)),
        minimum_ms := round2 (pyMin rts),
        maximum_ms := round2 (pyMax rts),
        p50_ms := round2 p50,
        p95_ms := round2 p95,
        p99_ms := round2 p99,
        status_codes := m.status_codes,
        errors := m.errors.take 10,
        errors_count := m.errors.length }

lemma metricsInv_runnerStep (cfg : LoadTestConfig) (st : RunnerState)
    (ev : RequestEvent) (h : metricsInv st.metrics) :
    metricsInv (runnerStep cfg st ev).metrics := by
  unfold runnerStep make_request
  cases hv : supportedVerb cfg.method with
  | none => simpa using h
  | some v =>
    cases ev with
    | httpResponse status text latency finish =>
      by_cases hs : 200 ≤ status ∧ status < 300 <;>
        simp [metricsInv, hs] at h ⊢ <;> omega
    | transportError msg latency =>
      simp [metricsInv] at h ⊢
      omega

lemma metricsInv_runEvents (cfg : LoadTestConfig) (st : RunnerState)
    (evs : List RequestEvent) (h : metricsInv st.metrics) :
    metricsInv (runEvents cfg st evs).metrics := by
  induction evs generalizing st with
  | nil => simpa [runEvents] using h
  | cons e rest ih =>
    have := metricsInv_runnerStep cfg st e h
    simpa [runEvents, List.foldl_cons] using ih (runnerStep cfg st e) this

/-- C1: starting from fresh metrics, after every sequence of completed
request attempts (HTTP responses and transport failures, in any
interleaving) recorded by `make_request`, the metrics satisfy
`total_requests = successful_requests + failed_requests`; consequently any
completed report carries counts satisfying the same identity. -/
theorem c1_total_eq_success_add_failed (cfg : LoadTestConfig)
    (evs : List RequestEvent) :
    metricsInv (runEvents cfg {} evs).metrics ∧
      (∀ r : Report, generate_report (runEvents cfg {} evs).metrics = .ok r →
        r.total_requests = r.successful_requests + r.failed_requests) := by
  have hinv : metricsInv (runEvents cfg {} evs).metrics :=
    metricsInv_runEvents cfg {} evs (by simp [metricsInv])
  refine ⟨hinv, ?_⟩
  intro r hr
  unfold generate_report at hr
  by_cases he : (runEvents cfg {} evs).metrics.response_times = []
  · simp [he] at hr
  · simp only [he, if_neg] at hr
    cases hr
    simpa [metricsInv] using hinv

lemma round2_mono {x y : ℚ} (h : x ≤ y) : round2 x ≤ round2 y := by
  unfold round2
  rw [round_eq, round_eq]
  have hf : ⌊x * 100 + 1 / 2⌋ ≤ ⌊y * 100 + 1 / 2⌋ :=
    Int.floor_mono (by linarith)
  have hq : ((⌊x * 100 + 1 / 2⌋ : ℤ) : ℚ) ≤ ((⌊y * 100 + 1 / 2⌋ : ℤ) : ℚ) := by
    exact_mod_cast hf
  linarith

lemma foldl_min_le_init (l : List ℚ) : ∀ a : ℚ, l.foldl min a ≤ a := by
  induction l with
  | nil => intro a; simp
  | cons b t ih =>
    intro a
    calc t.foldl min (min a b) ≤ min a b := ih _
      _ ≤ a := min_le_left _ _

lemma foldl_min_le_of_mem (l : List ℚ) :
    ∀ (a x : ℚ), x ∈ l → l.foldl min a ≤ x := by
  induction l with
  | nil => intro a x hx; cases hx
  | cons b t ih =>
    intro a x hx
    rcases List.mem_cons.mp hx with rfl | hx
    · calc t.foldl min (min a x) ≤ min a x := foldl_min_le_init t _
        _ ≤ x := min_le_right _ _
    · exact ih _ x hx

lemma le_foldl_max_init (l : List ℚ) : ∀ a : ℚ, a ≤ l.foldl max a := by
  induction l with
  | nil => intro a; simp
  | cons b t ih =>
    intro a
    calc a ≤ max a b := le_max_left _ _
      _ ≤ t.foldl max (max a b) := ih _

lemma le_foldl_max_of_mem (l : List ℚ) :
    ∀ (a x : ℚ), x ∈ l → x ≤ l.foldl max a := by
  induction l with
  | nil => intro a x hx; cases hx
  | cons b t ih =>
    intro a x hx
    rcases List.mem_cons.mp hx with rfl | hx
    · calc x ≤ max a x := le_max_right _ _
        _ ≤ t.foldl max (max a x) := le_foldl_max_init t _
    · exact ih _ x hx

lemma pyMin_le_of_mem {l : List ℚ} {x : ℚ} (hx : x ∈ l) : pyMin l ≤ x := by
  cases l with
  | nil => cases hx
  | cons b t =>
    rcases List.mem_cons.mp hx with rfl | hx
    · exact foldl_min_le_init t x
    · exact foldl_min_le_of_mem t b x hx

lemma le_pyMax_of_mem {l : List ℚ} {x : ℚ} (hx : x ∈ l) : x ≤ pyMax l := by
  cases l with
  | nil => cases hx
  | cons b t =>
    rcases List.mem_cons.mp hx with rfl | hx
    · exact le_foldl_max_init t x
    · exact le_foldl_max_of_mem t b x hx

lemma avg_le_pyMax (l : List ℚ) (h : l ≠ []) :
    l.sum / (l.length : ℚ) ≤ pyMax l := by
  have hlen : 0 < l.length := List.length_pos.mpr h
  have hlenq : (0 : ℚ) < (l.length : ℚ) := by exact_mod_cast hlen
  have hsum : l.sum ≤ l.length • pyMax l :=
    List.sum_le_card_nsmul l _ (fun x hx => le_pyMax_of_mem hx)
  rw [nsmul_eq_mul] at hsum
  rw [div_le_iff₀ hlenq]
  linarith [hsum]

lemma pyMin_le_avg (l : List ℚ) (h : l ≠ []) :
    pyMin l ≤ l.sum / (l.length : ℚ) := by
  have hlen : 0 < l.length := List.length_pos.mpr h
  have hlenq : (0 : ℚ) < (l.length : ℚ) := by exact_mod_cast hlen
  have hsum : l.length • pyMin l ≤ l.sum :=
    List.card_nsmul_le_sum l _ (fun x hx => pyMin_le_of_mem hx)
  rw [nsmul_eq_mul] at hsum
  rw [le_div_iff₀ hlenq]
  linarith [hsum]

lemma pctIndex_mono (n : Nat) {p q : ℚ} (hpq : p ≤ q) :
    pctIndex n p ≤ pctIndex n q := by
  unfold pctIndex
  have hn : (0 : ℚ) ≤ (n : ℚ) := Nat.cast_nonneg n
  have hmul : (n : ℚ) * p ≤ (n : ℚ) * q := by nlinarith
  have := Int.floor_mono hmul
  omega

lemma pctIndex_lt (n : Nat) (hn : 0 < n) {p : ℚ} (hp : p < 1) :
    pctIndex n p < n := by
  unfold pctIndex
  have hnq : (0 : ℚ) < (n : ℚ) := by exact_mod_cast hn
  have hmul : (n : ℚ) * p < (n : ℚ) := by nlinarith
  have hfl : ⌊(n : ℚ) * p⌋ < (n : ℤ) := Int.floor_lt.mpr (by push_cast; linarith)
  omega

lemma sorted_getD_mono {l : List ℚ} (hs : l.Sorted (· ≤ ·)) {i j : Nat}
    (hij : i ≤ j) (hj : j < l.length) : l.getD i 0 ≤ l.getD j 0 := by
  have hi : i < l.length := lt_of_le_of_lt hij hj
  rw [List.getD_eq_getElem _ _ hi, List.getD_eq_getElem _ _ hj]
  have := hs.rel_get_of_le (a := ⟨i, hi⟩) (b := ⟨j, hj⟩) hij
  simpa [List.get_eq_getElem] using this

lemma sortedLatencies_sorted (m : TestMetrics) :
    (sortedLatencies m).Sorted (· ≤ ·) :=
  List.sorted_insertionSort _ _

lemma sortedLatencies_perm (m : TestMetrics) :
    (sortedLatencies m).Perm m.response_times :=
  List.perm_insertionSort _ _

lemma generate_report_eq (m : TestMetrics) (h : m.response_times ≠ []) :
    generate_report m = .ok
      { total_requests := m.total_requests,
        successful_requests := m.successful_requests,
        failed_requests := m.failed_requests,
        error_rate_percent := round2 (if m.total_requests > 0 then
          (m.failed_requests : ℚ) / (m.total_requests : ℚ) * 100 else 0),
        average_ms := round2 (m.response_times.sum /
          (m.response_times.length : ℚ)),
        minimum_ms := round2 (pyMin m.response_times),
        maximum_ms := round2 (pyMax m.response_times),
        p50_ms := round2 ((sortedLatencies m).getD
          (pctIndex (sortedLatencies m).length (1/2)) 0),
        p95_ms := round2 ((sortedLatencies m).getD
          (pctIndex (sortedLatencies m).length (95/100)) 0),
        p99_ms := round2 ((sortedLatencies m).getD
          (pctIndex (sortedLatencies m).length (99/100)) 0),
        status_codes := m.status_codes,
        errors := m.errors.take 10,
        errors_count := m.errors.length } := by
  unfold generate_report
  rw [if_neg h]

/-- C3: a report generated from at least one recorded latency computes
`p50_ms`, `p95_ms`, `p99_ms` by nearest-rank indexing, `sorted[floor(p * n)]`,
into the sorted latency sequence, and consequently
`p50_ms ≤ p95_ms ≤ p99_ms ≤ maximum_ms` and
`minimum_ms ≤ average_ms ≤ maximum_ms`. -/
theorem c3_report_percentiles (m : TestMetrics)
    (h : m.response_times ≠ []) :
    ∃ r : Report, generate_report m = .ok r ∧
      r.p50_ms = round2 ((sortedLatencies m).getD
        ((⌊(1/2 : ℚ) * ((sortedLatencies m).length : ℚ)⌋).toNat) 0) ∧
      r.p95_ms = round2 ((sortedLatencies m).getD
        ((⌊(95/100 : ℚ) * ((sortedLatencies m).length : ℚ)⌋).toNat) 0) ∧
      r.p99_ms = round2 ((sortedLatencies m).getD
        ((⌊(99/100 : ℚ) * ((sortedLatencies m).length : ℚ)⌋).toNat) 0) ∧
      r.p50_ms ≤ r.p95_ms ∧ r.p95_ms ≤ r.p99_ms ∧ r.p99_ms ≤ r.maximum_ms ∧
      r.minimum_ms ≤ r.average_ms ∧ r.average_ms ≤ r.maximum_ms := by
  have hperm := sortedLatencies_perm m
  have hsorted := sortedLatencies_sorted m
  have hlen : (sortedLatencies m).length = m.response_times.length :=
    hperm.length_eq
  have hpos : 0 < (sortedLatencies m).length := by
    rw [hlen]; exact List.length_pos.mpr h
  have hi50 : pctIndex (sortedLatencies m).length (1/2) ≤
      pctIndex (sortedLatencies m).length (95/100) :=
    pctIndex_mono _ (by norm_num)
  have hi95 : pctIndex (sortedLatencies m).length (95/100) ≤
      pctIndex (sortedLatencies m).length (99/100) :=
    pctIndex_mono _ (by norm_num)
  have hi99 : pctIndex (sortedLatencies m).length (99/100) <
      (sortedLatencies m).length :=
    pctIndex_lt _ hpos (by norm_num)
  have hp5095 := sorted_getD_mono (l := sortedLatencies m) hsorted hi50
    (lt_of_le_of_lt hi95 hi99)
  have hp9599 := sorted_getD_mono (l := sortedLatencies m) hsorted hi95 hi99
  have hp99mem : (sortedLatencies m).getD
      (pctIndex (sortedLatencies m).length (99/100)) 0 ∈ m.response_times := by
    rw [List.getD_eq_getElem _ _ hi99]
    exact hperm.mem_iff.mp (List.getElem_mem hi99)
  have hp99max := le_pyMax_of_mem hp99mem
  have hminavg := pyMin_le_avg m.response_times h
  have havgmax := avg_le_pyMax m.response_times h
  have hidx : ∀ p : ℚ, pctIndex (sortedLatencies m).length p =
      (⌊p * ((sortedLatencies m).length : ℚ)⌋).toNat := by
    intro p; unfold pctIndex; rw [mul_comm]
  refine ⟨_, generate_report_eq m h, ?_, ?_, ?_, ?_, ?_, ?_, ?_, ?_⟩
  · rw [← hidx]
  · rw [← hidx]
  · rw [← hidx]
  · exact round2_mono hp5095
  · exact round2_mono hp9599
  · exact round2_mono hp99max
  · exact round2_mono hminavg
  · exact round2_mono havgmax

/-- Concrete metrics with three recorded latencies, used to instantiate
theorems about `generate_report`. -/
def sampleMetrics : TestMetrics :=
  { total_requests := 3, successful_requests := 2, failed_requests := 1,
    response_times := [3, 1, 2] }

/-- Witness instantiating `c3_report_percentiles` at `sampleMetrics`. -/
theorem c3_report_percentiles_witness :
    sampleMetrics.response_times ≠ [] ∧
    (∃ r : Report, generate_report sampleMetrics = .ok r ∧
      r.p50_ms = round2 ((sortedLatencies sampleMetrics).getD
        ((⌊(1/2 : ℚ) * ((sortedLatencies sampleMetrics).length : ℚ)⌋).toNat) 0) ∧
      r.p95_ms = round2 ((sortedLatencies sampleMetrics).getD
        ((⌊(95/100 : ℚ) * ((sortedLatencies sampleMetrics).length : ℚ)⌋).toNat) 0) ∧
      r.p99_ms = round2 ((sortedLatencies sampleMetrics).getD
        ((⌊(99/100 : ℚ) * ((sortedLatencies sampleMetrics).length : ℚ)⌋).toNat) 0) ∧
      r.p50_ms ≤ r.p95_ms ∧ r.p95_ms ≤ r.p99_ms ∧ r.p99_ms ≤ r.maximum_ms ∧
      r.minimum_ms ≤ r.average_ms ∧ r.average_ms ≤ r.maximum_ms) :=
  ⟨by decide, c3_report_percentiles sampleMetrics (by decide)⟩

lemma lookup_bumpStatus_self (codes : List (Nat × Nat)) (s : Nat) :
    (bumpStatus codes s).lookup s = some ((codes.lookup s).getD 0 + 1) := by
  induction codes with
  | nil => simp [bumpStatus]
  | cons p rest ih =>
    obtain ⟨k, v⟩ := p
    by_cases hk : k = s
    · subst hk
      simp [bumpStatus]
    · have hks : (s == k) = false := by simp [Ne.symm hk]
      simp [bumpStatus, hk, List.lookup, hks, ih]

lemma lookup_bumpStatus_other (codes : List (Nat × Nat)) (s c : Nat)
    (hc : c ≠ s) : (bumpStatus codes s).lookup c = codes.lookup c := by
  induction codes with
  | nil =>
    have hcs : (c == s) = false := by simp [hc]
    simp [bumpStatus, List.lookup, hcs]
  | cons p rest ih =>
    obtain ⟨k, v⟩ := p
    by_cases hk : k = s
    · subst hk
      have hck : (c == k) = false := by simp [hc]
      simp [bumpStatus, List.lookup, hck]
    · simp [bumpStatus, hk, List.lookup, ih]

/-- C9 (amended): with a dispatchable method, `make_request` classifies an
HTTP status in `[200, 300)` as success and everything else as failure; an
HTTP failure appends an error whose body snippet is truncated to 100
characters and every HTTP response bumps the status-code histogram at its
status (other statuses untouched); a transport failure is counted as a
failure, appends its message in full (no truncation), and adds no
status-code entry. -/
theorem c9_outcome_classification (cfg : LoadTestConfig) (st : RunnerState)
    (v : String) (hv : supportedVerb cfg.method = some v)
    (status : Nat) (text msg : String) (lat1 lat2 fin : ℚ) :
    (∃ p, make_request cfg st (.httpResponse status text lat1 fin) = .ok p) ∧
    (∃ p, make_request cfg st (.transportError msg lat2) = .ok p) ∧
    (∀ (st1 : RunnerState) (r1 : RequestResult),
      make_request cfg st (.httpResponse status text lat1 fin) = .ok (st1, r1) →
      (r1.success = true ↔ 200 ≤ status ∧ status < 300) ∧
      st1.metrics.status_codes.lookup status =
        some ((st.metrics.status_codes.lookup status).getD 0 + 1) ∧
      (∀ c, c ≠ status → st1.metrics.status_codes.lookup c =
        st.metrics.status_codes.lookup c) ∧
      (¬(200 ≤ status ∧ status < 300) → st1.metrics.errors =
        st.metrics.errors ++
          ["HTTP " ++ toString status ++ ": " ++ text.take 100]) ∧
      ((200 ≤ status ∧ status < 300) →
        st1.metrics.errors = st.metrics.errors)) ∧
    (∀ (st2 : RunnerState) (r2 : RequestResult),
      make_request cfg st (.transportError msg lat2) = .ok (st2, r2) →
      r2.success = false ∧
      st2.metrics.status_codes = st.metrics.status_codes ∧
      st2.metrics.errors = st.metrics.errors ++ ["Request error: " ++ msg]) := by
  refine ⟨?_, ?_, ?_, ?_⟩
  · unfold make_request
    rw [hv]
    exact ⟨_, rfl⟩
  · unfold make_request
    rw [hv]
    exact ⟨_, rfl⟩
  · intro st1 r1 hmk
    unfold make_request at hmk
    rw [hv] at hmk
    by_cases hs : 200 ≤ status ∧ status < 300 <;>
      simp only [hs, if_true, if_false, if_pos, if_neg, not_false_iff,
        Except.ok.injEq, Prod.mk.injEq] at hmk <;>
    · obtain ⟨hst, hr⟩ := hmk
      subst hst
      subst hr
      refine ⟨by simp [hs], by simp [lookup_bumpStatus_self], ?_, ?_, ?_⟩
      · intro c hc
        simpa using lookup_bumpStatus_other _ _ _ hc
      · intro hns
        first
        | exact absurd hs hns
        | rfl
      · intro hps
        first
        | rfl
        | exact absurd hps hs
  · intro st2 r2 hmk
    unfold make_request at hmk
    rw [hv] at hmk
    simp only [Except.ok.injEq, Prod.mk.injEq] at hmk
    obtain ⟨hst, hr⟩ := hmk
    subst hst
    subst hr
    exact ⟨rfl, rfl, rfl⟩

/-- Witness instantiating `c9_outcome_classification` with the default
config (method GET) at status 404. -/
theorem c9_outcome_classification_witness :
    supportedVerb (({} : LoadTestConfig)).method = some "GET" ∧
    ((∃ p, make_request {} {} (.httpResponse 404 "nope" 7 9) = .ok p) ∧
    (∃ p, make_request {} {} (.transportError "conn reset" 3) = .ok p) ∧
    (∀ (st1 : RunnerState) (r1 : RequestResult),
      make_request {} {} (.httpResponse 404 "nope" 7 9) = .ok (st1, r1) →
      (r1.success = true ↔ 200 ≤ 404 ∧ 404 < 300) ∧
      st1.metrics.status_codes.lookup 404 =
        some ((({} : RunnerState).metrics.status_codes.lookup 404).getD 0 + 1) ∧
      (∀ c, c ≠ 404 → st1.metrics.status_codes.lookup c =
        ({} : RunnerState).metrics.status_codes.lookup c) ∧
      (¬(200 ≤ 404 ∧ 404 < 300) → st1.metrics.errors =
        ({} : RunnerState).metrics.errors ++
          ["HTTP " ++ toString 404 ++ ": " ++ ("nope" : String).take 100]) ∧
      ((200 ≤ 404 ∧ 404 < 300) →
        st1.metrics.errors = ({} : RunnerState).metrics.errors)) ∧
    (∀ (st2 : RunnerState) (r2 : RequestResult),
      make_request {} {} (.transportError "conn reset" 3) = .ok (st2, r2) →
      r2.success = false ∧
      st2.metrics.status_codes = ({} : RunnerState).metrics.status_codes ∧
      st2.metrics.errors = ({} : RunnerState).metrics.errors ++
        ["Request error: " ++ "conn reset"])) :=
  ⟨by decide, c9_outcome_classification {} {} "GET" (by decide) 404 "nope"
    "conn reset" 7 3 9⟩

/-- C9 counterexample: the recorded transport-failure messages are not of
bounded length — `make_request` appends `"Request error: " ++ str(e)` with
no truncation, so no bound `B` covers all recorded failure messages. -/
theorem c9_counterexample :
    ¬ ∃ B : Nat, ∀ (msg : String) (st1 : RunnerState) (r : RequestResult),
      make_request {} {} (.transportError msg 0) = .ok (st1, r) →
      ∀ e ∈ st1.metrics.errors, e.length ≤ B := by
  rintro ⟨B, hB⟩
  have h1 := hB (String.mk (List.replicate (B + 1) 'x'))
    { metrics :=
        { total_requests := 1, failed_requests := 1, response_times := [0],
          errors := ["Request error: " ++
            String.mk (List.replicate (B + 1) 'x')] } }
    { success := false, response_time := 0,
      error := some (String.mk (List.replicate (B + 1) 'x')) }
    rfl ("Request error: " ++ String.mk (List.replicate (B + 1) 'x'))
    (by simp)
  rw [String.length_append] at h1
  have hlen : (String.mk (List.replicate (B + 1) 'x')).length = B + 1 := by
    simp [String.length]
  rw [hlen] at h1
  have : ("Request error: " : String).length = 15 := rfl
  omega

/-- C10: the rate-limiter stamp is a frame effect of the response path
only: a transport failure leaves `last_request_time` unchanged, while an
HTTP response (of any status) sets it to the post-response clock reading. -/
theorem c10_last_request_time_frame (cfg : LoadTestConfig) (st : RunnerState)
    (v : String) (hv : supportedVerb cfg.method = some v) :
    (∀ (msg : String) (lat : ℚ) (st' : RunnerState) (r : RequestResult),
      make_request cfg st (.transportError msg lat) = .ok (st', r) →
      st'.last_request_time = st.last_request_time) ∧
    (∀ (status : Nat) (text : String) (lat fin : ℚ)
      (st' : RunnerState) (r : RequestResult),
      make_request cfg st (.httpResponse status text lat fin) = .ok (st', r) →
      st'.last_request_time = fin) := by
  constructor
  · intro msg lat st' r hmk
    simp [make_request, hv] at hmk
    rw [← hmk.1]
  · intro status text lat fin st' r hmk
    by_cases hs : 200 ≤ status ∧ status < 300 <;>
      simp [make_request, hv, hs] at hmk <;> rw [← hmk.1]

/-- Witness instantiating `c10_last_request_time_frame` with the default
config and a runner state whose stamp is 42. -/
theorem c10_last_request_time_frame_witness :
    supportedVerb (({} : LoadTestConfig)).method = some "GET" ∧
    ((∀ (msg : String) (lat : ℚ) (st' : RunnerState) (r : RequestResult),
      make_request {} { last_request_time := 42 }
          (.transportError msg lat) = .ok (st', r) →
      st'.last_request_time = ({ last_request_time := 42 } :
        RunnerState).last_request_time) ∧
    (∀ (status : Nat) (text : String) (lat fin : ℚ)
      (st' : RunnerState) (r : RequestResult),
      make_request {} { last_request_time := 42 }
          (.httpResponse status text lat fin) = .ok (st', r) →
      st'.last_request_time = fin)) :=
  ⟨by decide,
   c10_last_request_time_frame {} { last_request_time := 42 } "GET" (by decide)⟩

/-- The `allowed_methods` list of the `validate_method` validator in
`backend/app/schemas/test.py` (line 58). -/
def allowed_methods : List String :=
  ["GET", "POST", "PUT", "DELETE", "PATCH", "HEAD", "OPTIONS"]

/-- The `validate_method` validator: a method passes validation iff its
upper-cased form is in `allowed_methods`. -/
def validate_method (v : String) : Bool := allowed_methods.contains (pyUpper v)

/-- C7: the validated method set admits HEAD and OPTIONS, but
`make_request` dispatches only GET, POST, PUT, DELETE and PATCH
(case-insensitively); a validated HEAD or OPTIONS config falls into the
`raise ValueError` branch, which leaves the runner state (and thus the
metrics) untouched. -/
theorem c7_validated_methods_not_all_dispatched :
    validate_method "HEAD" = true ∧ validate_method "OPTIONS" = true ∧
    supportedVerb "HEAD" = none ∧ supportedVerb "OPTIONS" = none ∧
    supportedVerb "get" = some "GET" ∧ supportedVerb "Post" = some "POST" ∧
    supportedVerb "put" = some "PUT" ∧ supportedVerb "delete" = some "DELETE" ∧
    supportedVerb "PaTcH" = some "PATCH" ∧
    make_request { method := "HEAD" } {} (.httpResponse 200 "ok" 5 1) =
      .error ("Unsupported HTTP method: " ++ "HEAD") ∧
    runnerStep { method := "HEAD" } {} (.httpResponse 200 "ok" 5 1) = {} ∧
    runnerStep { method := "OPTIONS" } {} (.transportError "x" 2) = {} :=
  ⟨rfl, rfl, rfl, rfl, rfl, rfl, rfl, rfl, rfl, rfl, rfl, rfl⟩

/-- Classification of an attempt outcome as a failure: a non-2xx response
or a transport error. -/
def isFailureEvent : RequestEvent → Bool
  | .httpResponse status _ _ _ => !(decide (200 ≤ status ∧ status < 300))
  | .transportError _ _ => true

/-- `LoadRunner.run_user_simulation`: one virtual user's loop over its
attempt outcomes.  The `running` flag is checked every iteration; an
exception raised by `make_request` (unsupported method) ends this user's
loop only, and `asyncio.gather(..., return_exceptions=True)` swallows it
without touching the metrics. -/
def runUserSim (cfg : LoadTestConfig) (st : RunnerState) :
    List RequestEvent → RunnerState
  | [] => st
  | ev :: rest =>
    if st.running then
      match make_request cfg st ev with
      | .ok (st', _) => runUserSim cfg st' rest
      | .error _ => st
    else st

/-- `LoadRunner.run_test`: sets `running`, runs every virtual user's loop
over the shared accumulator (the cooperative scheduler's interleaving,
here one canonical order — the counts proved below are order independent),
and returns the metrics.  The function is total: per-user exceptions are
swallowed by `gather` with `return_exceptions=True` and the remaining body
is wrapped in `except Exception`, so `run_test` returns a `TestMetrics`
for every configuration. -/
def run_test (cfg : LoadTestConfig) (scripts : List (List RequestEvent)) :
    TestMetrics :=
  (scripts.foldl (fun st sc => runUserSim cfg st sc) { running := true }).metrics

lemma make_request_is_ok (cfg : LoadTestConfig) (v : String)
    (hv : supportedVerb cfg.method = some v) (st : RunnerState)
    (ev : RequestEvent) : ∃ p, make_request cfg st ev = .ok p := by
  unfold make_request
  rw [hv]
  cases ev <;> exact ⟨_, rfl⟩

lemma runnerStep_running (cfg : LoadTestConfig) (st : RunnerState)
    (ev : RequestEvent) : (runnerStep cfg st ev).running = st.running := by
  unfold runnerStep make_request
  cases supportedVerb cfg.method with
  | none => rfl
  | some v =>
    cases ev with
    | httpResponse status text lat fin =>
      by_cases hs : 200 ≤ status ∧ status < 300 <;> simp [hs]
    | transportError msg lat => rfl

lemma runnerStep_total (cfg : LoadTestConfig) (v : String)
    (hv : supportedVerb cfg.method = some v) (st : RunnerState)
    (ev : RequestEvent) :
    (runnerStep cfg st ev).metrics.total_requests =
      st.metrics.total_requests + 1 := by
  unfold runnerStep make_request
  rw [hv]
  cases ev with
  | httpResponse status text lat fin =>
    by_cases hs : 200 ≤ status ∧ status < 300 <;> simp [hs]
  | transportError msg lat => rfl

lemma runnerStep_errlen (cfg : LoadTestConfig) (v : String)
    (hv : supportedVerb cfg.method = some v) (st : RunnerState)
    (ev : RequestEvent) :
    (runnerStep cfg st ev).metrics.errors.length =
      st.metrics.errors.length + (if isFailureEvent ev then 1 else 0) := by
  unfold runnerStep make_request
  rw [hv]
  cases ev with
  | httpResponse status text lat fin =>
    by_cases hs : 200 ≤ status ∧ status < 300 <;>
      simp [hs, isFailureEvent]
  | transportError msg lat => simp [isFailureEvent]

lemma runUserSim_stats (cfg : LoadTestConfig) (v : String)
    (hv : supportedVerb cfg.method = some v) :
    ∀ (sc : List RequestEvent) (st : RunnerState), st.running = true →
      (runUserSim cfg st sc).running = true ∧
      (runUserSim cfg st sc).metrics.total_requests =
        st.metrics.total_requests + sc.length ∧
      (runUserSim cfg st sc).metrics.errors.length =
        st.metrics.errors.length +
          (sc.filter (fun e => isFailureEvent e)).length ∧
      (metricsInv st.metrics → metricsInv (runUserSim cfg st sc).metrics) := by
  intro sc
  induction sc with
  | nil =>
    intro st h
    exact ⟨h, by simp [runUserSim], by simp [runUserSim], fun hi => hi⟩
  | cons ev rest ih =>
    intro st h
    obtain ⟨⟨st', r⟩, hok⟩ := make_request_is_ok cfg v hv st ev
    have hst' : st' = runnerStep cfg st ev := by
      unfold runnerStep; rw [hok]
    have hrun : st'.running = true := by
      rw [hst', runnerStep_running]; exact h
    have hmain := ih st' hrun
    have hred : runUserSim cfg st (ev :: rest) = runUserSim cfg st' rest := by
      simp [runUserSim, h, hok]
    have htot : st'.metrics.total_requests = st.metrics.total_requests + 1 := by
      rw [hst']; exact runnerStep_total cfg v hv st ev
    have herr : st'.metrics.errors.length =
        st.metrics.errors.length + (if isFailureEvent ev then 1 else 0) := by
      rw [hst']; exact runnerStep_errlen cfg v hv st ev
    have hinv : metricsInv st.metrics → metricsInv st'.metrics := by
      rw [hst']; exact metricsInv_runnerStep cfg st ev
    rw [hred]
    refine ⟨hmain.1, ?_, ?_, fun hi => hmain.2.2.2 (hinv hi)⟩
    · rw [hmain.2.1, htot, List.length_cons]; omega
    · rw [hmain.2.2.1, herr, List.filter_cons]
      by_cases hf : isFailureEvent ev <;> (simp [hf]; try omega)

lemma run_test_fold (cfg : LoadTestConfig) (v : String)
    (hv : supportedVerb cfg.method = some v) :
    ∀ (scripts : List (List RequestEvent)) (st : RunnerState),
      st.running = true →
      (scripts.foldl (fun s sc => runUserSim cfg s sc) st).running = true ∧
      (scripts.foldl (fun s sc => runUserSim cfg s sc) st).metrics.total_requests =
        st.metrics.total_requests + (scripts.map List.length).sum ∧
      (scripts.foldl (fun s sc => runUserSim cfg s sc) st).metrics.errors.length =
        st.metrics.errors.length + (scripts.map
          (fun sc => (sc.filter (fun e => isFailureEvent e)).length)).sum ∧
      (metricsInv st.metrics →
        metricsInv (scripts.foldl (fun s sc => runUserSim cfg s sc) st).metrics) := by
  intro scripts
  induction scripts with
  | nil => intro st h; simp [h]
  | cons sc rest ih =>
    intro st h
    have huser := runUserSim_stats cfg v hv sc st h
    have hmain := ih (runUserSim cfg st sc) huser.1
    refine ⟨hmain.1, ?_, ?_, fun hi => hmain.2.2.2 (huser.2.2.2 hi)⟩
    · simp only [List.foldl_cons, List.map_cons, List.sum_cons]
      rw [hmain.2.1, huser.2.1]; omega
    · simp only [List.foldl_cons, List.map_cons, List.sum_cons]
      rw [hmain.2.2.1, huser.2.2.1]; omega

/-- C8: with a dispatchable method, `run_test` returns metrics in which
every attempt of every virtual user was processed
(`total_requests` is the sum of all users' attempt counts — a failure in
one user never aborts the run or suppresses another user's attempts), and
every failed attempt is annotated in the errors list (`errors.length`
equals the number of failing attempts); the returned metrics satisfy the
accounting invariant.  `run_test` itself is a total function — it returns
a `TestMetrics` and never raises. -/
theorem c8_run_test_partial_failure_tolerant (cfg : LoadTestConfig)
    (v : String) (scripts : List (List RequestEvent))
    (hv : supportedVerb cfg.method = some v) :
    (run_test cfg scripts).total_requests = (scripts.map List.length).sum ∧
    (run_test cfg scripts).errors.length =
      (scripts.map (fun sc =>
        (sc.filter (fun e => isFailureEvent e)).length)).sum ∧
    metricsInv (run_test cfg scripts) := by
  have h := run_test_fold cfg v hv scripts { running := true } rfl
  refine ⟨?_, ?_, ?_⟩
  · unfold run_test; rw [h.2.1]; simp
  · unfold run_test; rw [h.2.2.1]; simp
  · unfold run_test; exact h.2.2.2 (by simp [metricsInv])

/-- Witness instantiating `c8_run_test_partial_failure_tolerant`: two
virtual users, one HTTP success, one HTTP failure and one transport
failure. -/
theorem c8_run_test_partial_failure_tolerant_witness :
    supportedVerb (({} : LoadTestConfig)).method = some "GET" ∧
    ((run_test {} [[.httpResponse 200 "" 1 1, .httpResponse 500 "err" 2 2],
        [.transportError "boom" 3]]).total_requests =
      ([[RequestEvent.httpResponse 200 "" 1 1,
         RequestEvent.httpResponse 500 "err" 2 2],
        [RequestEvent.transportError "boom" 3]].map List.length).sum ∧
    (run_test {} [[.httpResponse 200 "" 1 1, .httpResponse 500 "err" 2 2],
        [.transportError "boom" 3]]).errors.length =
      ([[RequestEvent.httpResponse 200 "" 1 1,
         RequestEvent.httpResponse 500 "err" 2 2],
        [RequestEvent.transportError "boom" 3]].map (fun sc =>
          (sc.filter (fun e => isFailureEvent e)).length)).sum ∧
    metricsInv (run_test {} [[.httpResponse 200 "" 1 1,
        .httpResponse 500 "err" 2 2], [.transportError "boom" 3]])) :=
  ⟨by decide, c8_run_test_partial_failure_tolerant {} "GET"
    [[.httpResponse 200 "" 1 1, .httpResponse 500 "err" 2 2],
     [.transportError "boom" 3]] (by decide)⟩

/-- What `await executor.execute_test(...)` does, as seen by
`TestExecutionManager.start_test`: it returns a result dict (success or
failure — `execute_test` catches its own `Exception`s), raises an
`Exception`, or raises a `BaseException` such as `asyncio.CancelledError`
(task cancellation), which `except Exception` does not match. -/
inductive ExecOutcome where
  | finished (success : Bool)
  | raisedExc (msg : String)
  | cancelled
deriving Repr, DecidableEq

/-- What `start_test` does for its caller: `rejected` and `failed` are the
`{"success": False, "error": ...}` dicts, `completed b` is the executor's
result dict with success flag `b`, and `propagated` means an uncaught
`BaseException` escaped `start_test` itself (no value returned). -/
inductive StartOutcome where
  | rejected (error : String)
  | completed (success : Bool)
  | failed (error : String)
  | propagated
deriving Repr, DecidableEq

/-- Registry state of `TestExecutionManager`: the keys of `active_tests`
in insertion order. -/
structure ManagerState where
  active_tests : List String := []
deriving Repr, DecidableEq

/-- The fixed `max_concurrent_tests` set in
`TestExecutionManager.__init__`. -/
def max_concurrent_tests : Nat := 5

/-- Python `if x in d: del d[x]` on the registry's key list. -/
def removeId (l : List String) (x : String) : List String :=
  if x ∈ l then l.erase x else l

/-- `TestExecutionManager.start_test`: the capacity check, registration of
the fresh execution id, the awaited execution, and the cleanup in the
normal return path and in the `except Exception` handler.  A raised
`BaseException` (cancellation) matches neither: it propagates and no
cleanup runs. -/
def start_test (st : ManagerState) (newId : String) (outcome : ExecOutcome) :
    ManagerState × StartOutcome :=
  if st.active_tests.length ≥ max_concurrent_tests then
    (st, .rejected ("Maximum concurrent tests (" ++
      toString max_concurrent_tests ++ ") reached"))
  else
    let st1 : ManagerState := { active_tests := st.active_tests ++ [newId] }
    match outcome with
    | .finished b =>
        ({ active_tests := removeId st1.active_tests newId }, .completed b)
    | .raisedExc msg =>
        ({ active_tests := removeId st1.active_tests newId },
         .failed ("Test execution failed: " ++ msg))
    | .cancelled => (st1, .propagated)

/-- C2: whenever the registry already tracks at least
`max_concurrent_tests = 5` executions, `start_test` returns the explicit
capacity rejection (a success-false result with the
maximum-concurrent-tests message) and leaves the registry unchanged — no
entry is added, whatever the would-be execution would have done. -/
theorem c2_capacity_rejection (st : ManagerState) (newId : String)
    (outcome : ExecOutcome)
    (h : st.active_tests.length ≥ max_concurrent_tests) :
    start_test st newId outcome =
      (st, .rejected "Maximum concurrent tests (5) reached") := by
  unfold start_test
  rw [if_pos h]
  rfl

/-- Witness instantiating `c2_capacity_rejection` at a registry holding
five executions. -/
theorem c2_capacity_rejection_witness :
    (⟨["a", "b", "c", "d", "e"]⟩ : ManagerState).active_tests.length ≥
      max_concurrent_tests ∧
    start_test ⟨["a", "b", "c", "d", "e"]⟩ "f" (.finished true) =
      (⟨["a", "b", "c", "d", "e"]⟩,
       .rejected "Maximum concurrent tests (5) reached") :=
  ⟨by decide, c2_capacity_rejection _ _ _ (by decide)⟩

/-- C4 counterexample: an admitted execution whose awaited run is
cancelled (a `BaseException`, not matched by `except Exception`) leaves
its handle registered — the slot leaks, refuting removal "on every
outcome ... or cancellation". -/
theorem c4_counterexample :
    start_test ⟨["a"]⟩ "b" .cancelled = (⟨["a", "b"]⟩, .propagated) ∧
    "b" ∈ (start_test ⟨["a"]⟩ "b" .cancelled).1.active_tests := by
  decide

/-- C4 (amended): for an admitted execution whose awaited run returns a
result (success or failure) or raises an `Exception`, `start_test`
removes the registered handle exactly once before returning — the registry
is restored to exactly its pre-admission state and the fresh id is gone,
so no slot leaks and nothing is removed twice.  On the remaining outcome,
cancellation, the handle is not removed (see the counterexample). -/
theorem c4_cleanup_on_return (st : ManagerState) (newId : String)
    (outcome : ExecOutcome)
    (hcap : st.active_tests.length < max_concurrent_tests)
    (hfresh : newId ∉ st.active_tests)
    (hout : outcome ≠ .cancelled) :
    (start_test st newId outcome).1.active_tests = st.active_tests ∧
    newId ∉ (start_test st newId outcome).1.active_tests := by
  have hns : ¬ st.active_tests.length ≥ max_concurrent_tests := by omega
  have hrem : removeId (st.active_tests ++ [newId]) newId =
      st.active_tests := by
    unfold removeId
    rw [if_pos (by simp), List.erase_append_right _ hfresh]
    simp
  cases outcome with
  | finished b =>
    unfold start_test
    rw [if_neg hns]
    simp only []
    exact ⟨by simp [hrem], by simp [hrem, hfresh]⟩
  | raisedExc msg =>
    unfold start_test
    rw [if_neg hns]
    simp only []
    exact ⟨by simp [hrem], by simp [hrem, hfresh]⟩
  | cancelled => exact absurd rfl hout

/-- Witness instantiating `c4_cleanup_on_return` at a one-entry registry
and a successful execution. -/
theorem c4_cleanup_on_return_witness :
    (⟨["a"]⟩ : ManagerState).active_tests.length < max_concurrent_tests ∧
    "b" ∉ (⟨["a"]⟩ : ManagerState).active_tests ∧
    ExecOutcome.finished true ≠ ExecOutcome.cancelled ∧
    ((start_test ⟨["a"]⟩ "b" (.finished true)).1.active_tests =
      (⟨["a"]⟩ : ManagerState).active_tests ∧
     "b" ∉ (start_test ⟨["a"]⟩ "b" (.finished true)).1.active_tests) :=
  ⟨by decide, by decide, by decide,
   c4_cleanup_on_return ⟨["a"]⟩ "b" (.finished true)
     (by decide) (by decide) (by decide)⟩

/-- A call the supervisor makes on the spawned k6 process. -/
inductive ProcAction where
  | terminate
  | kill
  | wait
deriving Repr, DecidableEq

/-- Behaviour of the spawned k6 process during
`communicate(timeout=...)`: it exits in time with a return code and
captured output, or the timeout expires. -/
inductive ProcBehavior where
  | exits (returncode : Int) (stdout stderr : String)
  | timesOut
deriving Repr, DecidableEq

/-- The normalized result `_run_k6_test` produces, plus whether the k6
process is still running afterward. -/
structure K6RunResult where
  success : Bool
  error : Option String := none
  stderr : Option String := none
  processRunning : Bool
deriving Repr, DecidableEq

/-- Supervision of the k6 subprocess in `TestExecutor._run_k6_test`
(lines 92-122), recording the process-control calls it issues in order.
An in-time exit is classified by return code; when `communicate` raises
`TimeoutExpired` the handler calls `process.kill()` and then
`process.wait()` and returns the timeout failure.  A process that exited,
or was killed and waited on, is not running afterwards. -/
def superviseK6 (behavior : ProcBehavior) : List ProcAction × K6RunResult :=
  match behavior with
  | .exits rc _ stderrText =>
    if rc = 0 then
      ([], { success := true, processRunning := false })
    else
      ([], { success := false,
             error := some ("k6 failed with return code " ++ toString rc),
             stderr := some stderrText, processRunning := false })
  | .timesOut =>
    ([.kill, .wait],
     { success := false, error := some "Test execution timed out",
       processRunning := false })

/-- C5 counterexample: on timeout the supervisor's first process-control
call is `kill` — it never issues a graceful `terminate` and waits no grace
period, refuting "first sends a graceful termination signal, waits a
short grace period, and only then force-kills". -/
theorem c5_counterexample :
    (superviseK6 .timesOut).1 = [ProcAction.kill, ProcAction.wait] ∧
    ProcAction.terminate ∉ (superviseK6 .timesOut).1 := by
  decide

/-- C5 (amended): when the k6 process exceeds its timeout, the supervisor
force-kills it immediately (kill, then wait — no graceful-termination
step), the execution's result is a failure carrying the timeout reason,
and the process is no longer running afterward. -/
theorem c5_timeout_kill_result :
    superviseK6 .timesOut = ([ProcAction.kill, ProcAction.wait],
      { success := false, error := some "Test execution timed out",
        processRunning := false }) := by
  decide

/-- A `TestExecutor` running the internal Python backend: its
`is_running` flag and the `LoadRunner` it drives.  For this backend
`self.process` is `None` — only `_run_k6_test` ever assigns it. -/
structure PyExecutorState where
  is_running : Bool
  runner : RunnerState
deriving Repr, DecidableEq

/-- The dict returned by `TestExecutor.abort_test`. -/
structure AbortResult where
  success : Bool
  message : Option String := none
  error : Option String := none
deriving Repr, DecidableEq

/-- `TestExecutor.abort_test` on an internal-backend execution: after the
`is_running` check, `self.process` is `None`, so the `if self.process:`
block is skipped and the trailing no-process error is returned; the
runner's `running` flag and metrics are not touched. -/
def abort_python_test (e : PyExecutorState) : PyExecutorState × AbortResult :=
  if e.is_running = false then
    (e, { success := false, error := some "No test is currently running" })
  else
    (e, { success := false, error := some "No process to abort" })

/-- A running internal-backend execution with some accumulated metrics. -/
def runningPyExecution : PyExecutorState :=
  { is_running := true, runner := { metrics := sampleMetrics, running := true } }

/-- C6 counterexample: invoking abort on a running internal-backend
execution does not stop the virtual-user loops.  The abort returns a
`success=False` no-process result, leaves the runner's `running` flag set,
and a subsequent loop iteration still issues a request (the request total
grows) — refuting "invoking abort causes every virtual-user loop to stop
promptly". -/
theorem c6_counterexample :
    (abort_python_test runningPyExecution).2.success = false ∧
    (abort_python_test runningPyExecution).2.error =
      some "No process to abort" ∧
    (abort_python_test runningPyExecution).1 = runningPyExecution ∧
    (runUserSim {} (abort_python_test runningPyExecution).1.runner
      [.httpResponse 200 "" 1 1]).metrics.total_requests =
      sampleMetrics.total_requests + 1 := by
  decide

/-- C6 (amended): each virtual-user loop does check the cancellation flag
every iteration and issues no further request once the flag is cleared,
and the partial metrics stay retrievable; but `abort_test` on a running
internal-backend execution never clears that flag — it returns a
`success=False` "No process to abort" result and leaves the runner state
(flag and metrics) unchanged. -/
theorem c6_abort_python_backend (cfg : LoadTestConfig) (st : RunnerState)
    (evs : List RequestEvent) (e : PyExecutorState)
    (hstop : st.running = false) (hrun : e.is_running = true) :
    runUserSim cfg st evs = st ∧
    abort_python_test e =
      (e, { success := false, error := some "No process to abort" }) := by
  constructor
  · cases evs with
    | nil => rfl
    | cons ev rest => simp [runUserSim, hstop]
  · unfold abort_python_test
    rw [hrun]
    simp

/-- Witness instantiating `c6_abort_python_backend` at a stopped runner
and the running execution above. -/
theorem c6_abort_python_backend_witness :
    ({ running := false } : RunnerState).running = false ∧
    runningPyExecution.is_running = true ∧
    (runUserSim {} { running := false } [.transportError "x" 0] =
      ({ running := false } : RunnerState) ∧
    abort_python_test runningPyExecution =
      (runningPyExecution,
       { success := false, error := some "No process to abort" })) :=
  ⟨rfl, rfl, c6_abort_python_backend {} { running := false }
    [.transportError "x" 0] runningPyExecution rfl rfl⟩

end LoadBench
